import Mathlib

/-!
Verification of the AniList manga-history calendar exporter (`main.py`).

The development shallowly embeds the two core components of the source:
the Progress Interpreter (`parse_progress`, main.py lines 91-117) and the
Timeline Reconstructor / ICS generator (`generate_ics`, lines 119-213).
Machine integers are modelled as `Int` (Python integers are unbounded, so
no wrap-around is involved); Python exceptions are modelled with
`Except String`; Python dictionaries are modelled as association lists.
-/

namespace AniCal

/-- Model of a Python float as it is used by the source. The only
operation the source ever applies to a float is `int(val)` (truncation
toward zero), so a finite float is carried by its truncation; the
non-finite values `nan`, `inf` and `-inf` are kept as distinct
constructors because `int()` raises on them. -/
inductive PyFloat where
  | finite (trunc : Int)
  | nan
  | inf
  | ninf
deriving DecidableEq, Repr

/-- Model of the dynamically typed `progress` field: `None`, an `int`,
a `float`, or a `str`. -/
inductive PyVal where
  | none
  | vint (n : Int)
  | vfloat (f : PyFloat)
  | vstr (s : String)
deriving DecidableEq, Repr

/-- Python `str.strip()` on a character list: drop whitespace from both
ends. (Python strips the full Unicode whitespace set; the source only
ever meets ASCII whitespace, which `Char.isWhitespace` covers.) -/
def pyStripChars (cs : List Char) : List Char :=
  ((cs.dropWhile Char.isWhitespace).reverse.dropWhile Char.isWhitespace).reverse

/-- Python `str.split(sep)` for a one-character separator: every
occurrence of the separator cuts the string, so `"-5".split('-')`
gives `["", "5"]` and `"a--b".split('-')` gives `["a", "", "b"]`. -/
def pySplitOn (sep : Char) : List Char → List (List Char)
  | [] => [[]]
  | c :: cs =>
    if c = sep then
      [] :: pySplitOn sep cs
    else
      match pySplitOn sep cs with
      | [] => [[c]]
      | s :: rest => (c :: s) :: rest

/-- Digit-and-underscore tail of a Python integer literal: after the
first digit, an underscore is permitted only between two digits
(`int("1_2") = 12`, while `int("1_")` and `int("1__2")` raise). -/
def pyDigitsAux : List Char → Nat → Option Nat
  | [], acc => some acc
  | '_' :: rest, acc =>
    match rest with
    | [] => Option.none
    | c :: rest' =>
      if c.isDigit then pyDigitsAux rest' (acc * 10 + (c.toNat - '0'.toNat))
      else Option.none
  | c :: rest, acc =>
    if c.isDigit then pyDigitsAux rest (acc * 10 + (c.toNat - '0'.toNat))
    else Option.none

/-- Unsigned part of Python `int(str)`: a nonempty digit sequence that
must start with a digit (so `int("_1")` raises). -/
def pyIntDigits : List Char → Option Nat
  | [] => Option.none
  | c :: rest =>
    if c.isDigit then pyDigitsAux rest (c.toNat - '0'.toNat)
    else Option.none

/-- Python `int(str)`: strip surrounding whitespace, then an optional
sign followed by digits (ASCII digits, with Python's underscore
grouping). `Option.none` models the `ValueError` that `int()` raises on
malformed input. -/
def pyIntOfChars (cs : List Char) : Option Int :=
  match pyStripChars cs with
  | '-' :: rest => (pyIntDigits rest).map (fun n => -(Int.ofNat n))
  | '+' :: rest => (pyIntDigits rest).map (fun n => Int.ofNat n)
  | t => (pyIntDigits t).map (fun n => Int.ofNat n)

/-- Embedding of `parse_progress` (main.py lines 91-117).

```
def parse_progress(val):
    if val is None: return 0
    if isinstance(val, (int, float)):
        return int(val)
    val_str = str(val).strip()
    if '-' in val_str:
        try:
            parts = val_str.split('-')
            return int(parts[-1].strip())
        except ValueError:
            return 0
    try:
        return int(val_str)
    except ValueError:
        return 0
```

The two `try`/`except ValueError` blocks are modelled by the
`Option`-valued `pyIntOfChars`; the un-guarded `int(val)` on a float
raises for non-finite floats, modelled by `Except.error`. -/
def parse_progress (val : PyVal) : Except String Int :=
  match val with
  | .none => .ok 0
  | .vint n => .ok n
  | .vfloat (.finite t) => .ok t
  | .vfloat .nan => .error "ValueError: cannot convert float NaN to integer"
  | .vfloat .inf => .error "OverflowError: cannot convert float infinity to integer"
  | .vfloat .ninf => .error "OverflowError: cannot convert float infinity to integer"
  | .vstr s =>
    let val_str := pyStripChars s.data
    if val_str.contains '-' then
      match pyIntOfChars (pyStripChars ((pySplitOn '-' val_str).getLastD [])) with
      | some n => .ok n
      | Option.none => .ok 0
    else
      match pyIntOfChars val_str with
      | some n => .ok n
      | Option.none => .ok 0

/-- Title variants of a media record (`act['media']['title']`); each
variant is `Option String` because the API returns `null` for an absent
variant. The media `type` field is consumed by the fetch collaborator
(`get_manga_history` filters to MANGA) and never read by `generate_ics`,
so it is not modelled. -/
structure Media where
  id : Int
  titleEnglish : Option String
  titleRomaji : Option String
deriving DecidableEq, Repr

/-- One AniList list-activity record, as consumed by `generate_ics`. -/
structure Activity where
  id : Int
  createdAt : Int
  status : String
  progress : PyVal
  media : Media
deriving DecidableEq, Repr

/-- One emitted calendar event (the data rendered into a VEVENT block). -/
structure Event where
  id : Int
  start : Int
  stop : Int
  summary : String
  description : String
deriving DecidableEq, Repr

/-- Configuration constant `MINUTES_PER_CHAPTER = 4` (main.py line 8). -/
def MINUTES_PER_CHAPTER : Int := 4

/-- Python `a or b` for an optional string `a`: `None` and the empty
string are falsy, anything else is returned unchanged. -/
def pyOrStr (v : Option String) (fallback : String) : String :=
  match v with
  | some s => if s = "" then fallback else s
  | Option.none => fallback

/-- Title resolution (main.py line 138):
`act['media']['title']['english'] or act['media']['title']['romaji'] or "Unknown Title"`. -/
def resolveTitle (english romaji : Option String) : String :=
  pyOrStr english (pyOrStr romaji "Unknown Title")

/-- Python `dict.get(k, d)` on an association list. -/
def lookupD (t : List (Int × Int)) (k d : Int) : Int :=
  ((t.lookup k).getD d)

/-- Python `dict[k] = v` on an association list: replace the existing
binding or append a new one. -/
def setEntry (t : List (Int × Int)) (k v : Int) : List (Int × Int) :=
  match t with
  | [] => [(k, v)]
  | (k', v') :: rest => if k' = k then (k, v) :: rest else (k', v') :: setEntry rest k v

/-- Chapters-read computation (main.py lines 146-156):

```
if current_progress > previous_progress:
    chapters_read = current_progress - previous_progress
    if previous_progress == 0 and chapters_read > 500:
        chapters_read = 1
else:
    chapters_read = 1
if chapters_read < 1: chapters_read = 1
``` -/
def chapters_read (current_progress previous_progress : Int) : Int :=
  let c :=
    if current_progress > previous_progress then
      let d := current_progress - previous_progress
      if previous_progress = 0 ∧ d > 500 then 1 else d
    else 1
  if c < 1 then 1 else c

/-- Smart time shifting (main.py lines 163-171): shift the start to one
second past the cursor only when it overlaps the cursor by less than
7200 seconds. -/
def calculated_start (last_busy_until original_start : Int) : Int :=
  if original_start < last_busy_until then
    if last_busy_until - original_start < 7200 then last_busy_until + 1 else original_start
  else original_start

/-- Summary construction and emission decision (main.py lines 182-191);
`Option.none` models the `continue` that skips emission. Python's
`elif current_progress:` is integer truthiness, i.e. `current ≠ 0`. -/
def summaryFor (status title : String) (chapters previous current : Int) : Option String :=
  if status = "COMPLETED" then
    some ("Completed: " ++ title)
  else if current ≠ 0 then
    if chapters > 1 then
      some ("Read " ++ title ++ " (Ch. " ++ toString (previous + 1) ++ "-" ++ toString current ++ ")")
    else
      some ("Read " ++ title ++ " Ch. " ++ toString current)
  else
    Option.none

/-- Reconstruction state: the per-title `progress_tracker` dict, the
`time_tracker['global_last_end']` cursor, and the events emitted so far. -/
structure RState where
  tracker : List (Int × Int)
  cursor : Int
  events : List Event
deriving DecidableEq, Repr

/-- Initial reconstruction state (main.py lines 133-134). -/
def initState : RState := { tracker := [], cursor := 0, events := [] }

/-- One iteration of the `generate_ics` loop (main.py lines 136-206) at
the level of `Event` records: compute chapters read, duration, shifted
start and end, update the two trackers, then emit an event unless the
summary step skips. The updates at lines 176-179 happen before the
emission check, which the order of operations here preserves. -/
def processActivity (s : RState) (act : Activity) : Except String RState := do
  let media_id := act.media.id
  let title := resolveTitle act.media.titleEnglish act.media.titleRomaji
  let current_progress ← parse_progress act.progress
  let previous_progress ← parse_progress (.vint (lookupD s.tracker media_id 0))
  let chapters := chapters_read current_progress previous_progress
  let duration_minutes := chapters * MINUTES_PER_CHAPTER
  let duration_seconds := duration_minutes * 60
  let cstart := calculated_start s.cursor act.createdAt
  let cend := cstart + duration_seconds
  let tracker' := if current_progress > 0 then setEntry s.tracker media_id current_progress else s.tracker
  match summaryFor act.status title chapters previous_progress current_progress with
  | Option.none => pure { tracker := tracker', cursor := cend, events := s.events }
  | some summary =>
    pure { tracker := tracker', cursor := cend,
           events := s.events ++
             [{ id := act.id, start := cstart, stop := cend, summary := summary,
                description := "Read " ++ toString chapters ++ " chapters. Duration: " ++
                  toString duration_minutes ++ " mins." }] }

/-- Stable insertion of an activity into an id-sorted list: the new
element goes before the first element whose id is not smaller, so
elements with equal ids keep their original relative order. -/
def insertById (a : Activity) : List Activity → List Activity
  | [] => [a]
  | b :: bs => if b.id < a.id then b :: insertById a bs else a :: b :: bs

/-- Model of `activities.sort(key=lambda x: x['id'])` (main.py line 131):
a stable ascending sort by activity id, as Python's `list.sort` is. -/
def sortById (l : List Activity) : List Activity := l.foldr insertById []

/-- Event-level model of the whole reconstruction run: sort by id
(main.py line 131), then fold the per-activity step from the initial
state. -/
def reconstruct (activities : List Activity) : Except String RState :=
  (sortById activities).foldlM processActivity initState

/-- Days-since-epoch to Gregorian civil date `(year, month, day)`, the
standard civil-from-days algorithm (all divisions are floor divisions,
matching Python's calendar arithmetic in `datetime.fromtimestamp`). -/
def civilFromDays (z0 : Int) : Int × Int × Int :=
  let z := z0 + 719468
  let era := z.ediv 146097
  let doe := z - era * 146097
  let yoe := (doe - doe.ediv 1460 + doe.ediv 36524 - doe.ediv 146096).ediv 365
  let y := yoe + era * 400
  let doy := doe - (365 * yoe + yoe.ediv 4 - yoe.ediv 100)
  let mp := (5 * doy + 2).ediv 153
  let d := doy - (153 * mp + 2).ediv 5 + 1
  let m := mp + (if mp < 10 then 3 else -9)
  (y + (if m ≤ 2 then 1 else 0), m, d)

/-- Left-pad a string with zeros to width `w` (the behavior of the
zero-padded `strftime` conversions). -/
def zfill (w : Nat) (s : String) : String :=
  String.mk (List.replicate (w - s.length) '0') ++ s

/-- Embedding of `format_date_ics` (main.py lines 87-89):
`datetime.fromtimestamp(timestamp, tz=utc).strftime('%Y%m%dT%H%M%SZ')`.
The timestamp is split into days and second-of-day with floor division
(negative timestamps round toward earlier days, as in Python), and the
civil date comes from `civilFromDays`. Every timestamp reachable from
the AniList API falls in years 1970-9999, where `%Y` is the plain
four-digit year. -/
def format_date_ics (ts : Int) : String :=
  let days := ts.ediv 86400
  let secs := ts.emod 86400
  let c := civilFromDays days
  zfill 4 (toString c.1) ++ zfill 2 (toString c.2.1) ++ zfill 2 (toString c.2.2) ++ "T" ++
    zfill 2 (toString (secs.ediv 3600)) ++ zfill 2 (toString ((secs.emod 3600).ediv 60)) ++
    zfill 2 (toString (secs.emod 60)) ++ "Z"

/-- The fixed VCALENDAR header lines (main.py lines 122-128). -/
def icsHeader : List String :=
  ["BEGIN:VCALENDAR", "VERSION:2.0", "PRODID:-//AniList History Export//EN",
   "CALSCALE:GREGORIAN", "METHOD:PUBLISH"]

/-- State of the `generate_ics` loop at the level of output lines. -/
structure GState where
  tracker : List (Int × Int)
  cursor : Int
  lines : List String
deriving DecidableEq, Repr

/-- One iteration of the `generate_ics` loop (main.py lines 136-206) at
the level of output text lines, translated directly from the source:
the same computations as `processActivity`, with the eight VEVENT lines
(lines 196-205) appended inline on emission. -/
def generateStep (s : GState) (act : Activity) : Except String GState := do
  let media_id := act.media.id
  let title := resolveTitle act.media.titleEnglish act.media.titleRomaji
  let current_progress ← parse_progress act.progress
  let previous_progress ← parse_progress (.vint (lookupD s.tracker media_id 0))
  let chapters := chapters_read current_progress previous_progress
  let duration_minutes := chapters * MINUTES_PER_CHAPTER
  let duration_seconds := duration_minutes * 60
  let cstart := calculated_start s.cursor act.createdAt
  let cend := cstart + duration_seconds
  let tracker' := if current_progress > 0 then setEntry s.tracker media_id current_progress else s.tracker
  match summaryFor act.status title chapters previous_progress current_progress with
  | Option.none => pure { tracker := tracker', cursor := cend, lines := s.lines }
  | some summary =>
    pure { tracker := tracker', cursor := cend,
           lines := s.lines ++
             ["BEGIN:VEVENT",
              "UID:anilist-" ++ toString act.id ++ "@anilist.co",
              "DTSTAMP:" ++ format_date_ics cstart,
              "DTSTART:" ++ format_date_ics cstart,
              "DTEND:" ++ format_date_ics cend,
              "SUMMARY:" ++ summary,
              "DESCRIPTION:Read " ++ toString chapters ++ " chapters. Duration: " ++
                toString duration_minutes ++ " mins.",
              "END:VEVENT"] }

/-- Embedding of `generate_ics` (main.py lines 119-213) as the list of
text lines written to the output file: header, sort by id, loop, footer.
(The file write itself and the progress prints are I/O outside the
algorithmic core.) -/
def generate_ics (activities : List Activity) : Except String (List String) := do
  let st ← (sortById activities).foldlM generateStep
    { tracker := [], cursor := 0, lines := icsHeader }
  pure (st.lines ++ ["END:VCALENDAR"])

/-- The eight output lines of one VEVENT sub-block, as a function of the
emitted event record (main.py lines 196-205). -/
def eventBlock (ev : Event) : List String :=
  ["BEGIN:VEVENT",
   "UID:anilist-" ++ toString ev.id ++ "@anilist.co",
   "DTSTAMP:" ++ format_date_ics ev.start,
   "DTSTART:" ++ format_date_ics ev.start,
   "DTEND:" ++ format_date_ics ev.stop,
   "SUMMARY:" ++ ev.summary,
   "DESCRIPTION:" ++ ev.description,
   "END:VEVENT"]

/-- A reconstruction state that actually arises while `generate_ics`
processes some activity sequence: the result of folding the
per-activity step from the initial state over some list. -/
def ReachableState (s : RState) : Prop :=
  ∃ acts : List Activity, acts.foldlM processActivity initState = Except.ok s

end AniCal

namespace AniCal

example : parse_progress .none = .ok 0 := rfl
example : parse_progress (.vint 42) = .ok 42 := rfl
example : parse_progress (.vstr "111 - 121") = .ok 121 := rfl
example : parse_progress (.vstr "abc") = .ok 0 := rfl
example : parse_progress (.vstr "7") = .ok 7 := rfl
example : parse_progress (.vstr "-5") = .ok 5 := rfl
example : parse_progress (.vstr "1_2") = .ok 12 := rfl
example : parse_progress (.vstr "1__2") = .ok 0 := rfl
example : parse_progress (.vstr "  8  ") = .ok 8 := rfl
example : parse_progress (.vstr "5-") = .ok 0 := rfl

example : format_date_ics 0 = "19700101T000000Z" := rfl
example : format_date_ics 1000000000 = "20010909T014640Z" := rfl
example : format_date_ics 1000 = "19700101T001640Z" := rfl
example : format_date_ics 3400 = "19700101T005640Z" := rfl

example :
    reconstruct
      [{ id := 1, createdAt := 1000, status := "CURRENT", progress := .vint 10,
         media := { id := 7, titleEnglish := some "X", titleRomaji := Option.none } },
       { id := 2, createdAt := 1010, status := "CURRENT", progress := .vint 25,
         media := { id := 7, titleEnglish := some "X", titleRomaji := Option.none } }] =
    .ok { tracker := [(7, 25)], cursor := 7001,
          events :=
            [{ id := 1, start := 1000, stop := 3400, summary := "Read X (Ch. 1-10)",
               description := "Read 10 chapters. Duration: 40 mins." },
             { id := 2, start := 3401, stop := 7001, summary := "Read X (Ch. 11-25)",
               description := "Read 15 chapters. Duration: 60 mins." }] } := rfl

example :
    (reconstruct
      [{ id := 1, createdAt := 0, status := "CURRENT", progress := .vint 100,
         media := { id := 7, titleEnglish := some "X", titleRomaji := Option.none } }]).map RState.cursor = .ok 24000 := rfl

example :
    (reconstruct
      [{ id := 1, createdAt := 0, status := "CURRENT", progress := .vint 100,
         media := { id := 7, titleEnglish := some "X", titleRomaji := Option.none } },
       { id := 2, createdAt := 10, status := "CURRENT", progress := .vint 101,
         media := { id := 7, titleEnglish := some "X", titleRomaji := Option.none } }]).map RState.cursor = .ok 250 := rfl

/-! ### Helper lemmas -/

theorem chapters_read_ge_one (cur prev : Int) : 1 ≤ chapters_read cur prev := by
  dsimp only [chapters_read]
  split_ifs <;> omega

theorem processActivity_err (s : RState) (act : Activity) (e : String)
    (hp : parse_progress act.progress = Except.error e) :
    processActivity s act = Except.error e := by
  unfold processActivity
  rw [hp]
  rfl

theorem processActivity_exists_parse (s : RState) (act : Activity) (s' : RState)
    (hok : processActivity s act = Except.ok s') :
    ∃ cur : Int, parse_progress act.progress = Except.ok cur := by
  cases hp : parse_progress act.progress with
  | error e => rw [processActivity_err s act e hp] at hok; cases hok
  | ok cur => exact ⟨cur, rfl⟩

theorem processActivity_spec (s : RState) (act : Activity) (s' : RState) (cur : Int)
    (hp : parse_progress act.progress = Except.ok cur)
    (hok : processActivity s act = Except.ok s') :
    s'.tracker = (if cur > 0 then setEntry s.tracker act.media.id cur else s.tracker) ∧
    s'.cursor = calculated_start s.cursor act.createdAt +
      chapters_read cur (lookupD s.tracker act.media.id 0) * MINUTES_PER_CHAPTER * 60 ∧
    ((summaryFor act.status (resolveTitle act.media.titleEnglish act.media.titleRomaji)
        (chapters_read cur (lookupD s.tracker act.media.id 0))
        (lookupD s.tracker act.media.id 0) cur = Option.none ∧
      s'.events = s.events) ∨
     (∃ sum : String,
       summaryFor act.status (resolveTitle act.media.titleEnglish act.media.titleRomaji)
         (chapters_read cur (lookupD s.tracker act.media.id 0))
         (lookupD s.tracker act.media.id 0) cur = some sum ∧
       s'.events = s.events ++
         [{ id := act.id,
            start := calculated_start s.cursor act.createdAt,
            stop := calculated_start s.cursor act.createdAt +
              chapters_read cur (lookupD s.tracker act.media.id 0) * MINUTES_PER_CHAPTER * 60,
            summary := sum,
            description := "Read " ++
              toString (chapters_read cur (lookupD s.tracker act.media.id 0)) ++
              " chapters. Duration: " ++
              toString (chapters_read cur (lookupD s.tracker act.media.id 0) *
                MINUTES_PER_CHAPTER) ++ " mins." }])) := by
  have key : processActivity s act =
      (match summaryFor act.status (resolveTitle act.media.titleEnglish act.media.titleRomaji)
          (chapters_read cur (lookupD s.tracker act.media.id 0))
          (lookupD s.tracker act.media.id 0) cur with
       | Option.none =>
         Except.ok
           { tracker := if cur > 0 then setEntry s.tracker act.media.id cur else s.tracker,
             cursor := calculated_start s.cursor act.createdAt +
               chapters_read cur (lookupD s.tracker act.media.id 0) * MINUTES_PER_CHAPTER * 60,
             events := s.events }
       | some sum =>
         Except.ok
           { tracker := if cur > 0 then setEntry s.tracker act.media.id cur else s.tracker,
             cursor := calculated_start s.cursor act.createdAt +
               chapters_read cur (lookupD s.tracker act.media.id 0) * MINUTES_PER_CHAPTER * 60,
             events := s.events ++
               [{ id := act.id,
                  start := calculated_start s.cursor act.createdAt,
                  stop := calculated_start s.cursor act.createdAt +
                    chapters_read cur (lookupD s.tracker act.media.id 0) *
                      MINUTES_PER_CHAPTER * 60,
                  summary := sum,
                  description := "Read " ++
                    toString (chapters_read cur (lookupD s.tracker act.media.id 0)) ++
                    " chapters. Duration: " ++
                    toString (chapters_read cur (lookupD s.tracker act.media.id 0) *
                      MINUTES_PER_CHAPTER) ++ " mins." }] }) := by
    unfold processActivity
    rw [hp]
    rfl
  cases hs : summaryFor act.status (resolveTitle act.media.titleEnglish act.media.titleRomaji)
      (chapters_read cur (lookupD s.tracker act.media.id 0))
      (lookupD s.tracker act.media.id 0) cur with
  | none =>
    rw [hs] at key
    dsimp only at key
    have h := key.symm.trans hok
    injection h with h
    subst h
    exact ⟨rfl, rfl, Or.inl ⟨rfl, rfl⟩⟩
  | some sum =>
    rw [hs] at key
    dsimp only at key
    have h := key.symm.trans hok
    injection h with h
    subst h
    exact ⟨rfl, rfl, Or.inr ⟨sum, rfl, rfl⟩⟩

theorem mem_setEntry (t : List (Int × Int)) (k v : Int) (p : Int × Int)
    (h : p ∈ setEntry t k v) : p = (k, v) ∨ p ∈ t := by
  induction t with
  | nil =>
    simp only [setEntry, List.mem_singleton] at h
    exact Or.inl h
  | cons q rest ih =>
    obtain ⟨k', v'⟩ := q
    dsimp only [setEntry] at h
    split_ifs at h with hk
    · rcases List.mem_cons.mp h with h' | h'
      · exact Or.inl h'
      · exact Or.inr (List.mem_cons_of_mem _ h')
    · rcases List.mem_cons.mp h with h' | h'
      · exact Or.inr (h' ▸ List.mem_cons_self _ _)
      · rcases ih h' with h'' | h''
        · exact Or.inl h''
        · exact Or.inr (List.mem_cons_of_mem _ h'')

theorem lookup_mem (t : List (Int × Int)) (k v : Int) (h : t.lookup k = some v) :
    (k, v) ∈ t := by
  rw [List.lookup_eq_some_iff] at h
  obtain ⟨l₁, l₂, rfl, -⟩ := h
  exact List.mem_append.mpr (Or.inr (List.mem_cons_self _ _))

theorem lookupD_nonneg (t : List (Int × Int)) (k : Int)
    (hpos : ∀ p ∈ t, 0 < p.2) : 0 ≤ lookupD t k 0 := by
  unfold lookupD
  cases h : t.lookup k with
  | none => simp
  | some v =>
    simpa using le_of_lt (hpos (k, v) (lookup_mem t k v h))

theorem tracker_pos_step (s : RState) (act : Activity) (s' : RState)
    (hok : processActivity s act = Except.ok s')
    (hpos : ∀ p ∈ s.tracker, 0 < p.2) : ∀ p ∈ s'.tracker, 0 < p.2 := by
  obtain ⟨cur, hp⟩ := processActivity_exists_parse s act s' hok
  obtain ⟨ht, -, -⟩ := processActivity_spec s act s' cur hp hok
  intro p hmem
  rw [ht] at hmem
  split_ifs at hmem with hc
  · rcases mem_setEntry _ _ _ _ hmem with h' | h'
    · rw [h']; exact hc
    · exact hpos p h'
  · exact hpos p hmem

theorem reachable_tracker_pos (s : RState) (h : ReachableState s) :
    ∀ p ∈ s.tracker, 0 < p.2 := by
  obtain ⟨acts, hfold⟩ := h
  have main : ∀ (l : List Activity) (s0 sF : RState), (∀ p ∈ s0.tracker, 0 < p.2) →
      l.foldlM processActivity s0 = Except.ok sF → ∀ p ∈ sF.tracker, 0 < p.2 := by
    intro l
    induction l with
    | nil =>
      intro s0 sF h0 hf
      have hf' : Except.ok s0 = Except.ok sF := hf
      injection hf' with hf'
      exact hf' ▸ h0
    | cons a as ih =>
      intro s0 sF h0 hf
      rw [List.foldlM_cons] at hf
      cases h1 : processActivity s0 a with
      | error e =>
        rw [h1] at hf
        have hf' : (Except.error e : Except String RState) = Except.ok sF := hf
        cases hf'
      | ok s1 =>
        rw [h1] at hf
        have hf' : as.foldlM processActivity s1 = Except.ok sF := hf
        exact ih s1 sF (tracker_pos_step s0 a s1 h1 h0) hf'
  exact main acts initState s (by intro p hp; cases hp) hfold

/-! ### Claim theorems -/

/-- C1: for every activity, `chapters_read` is the forward difference
`current - previous` when there is forward progress, except that a jump
from `previous = 0` by more than 500 is corrected to 1; with no forward
progress (`current ≤ previous`) it is 1; and it is at least 1 in every
case. -/
theorem chapters_read_formula (cur prev : Int) :
    (cur > prev → ¬(prev = 0 ∧ cur - prev > 500) → chapters_read cur prev = cur - prev) ∧
    (cur > prev → prev = 0 → cur - prev > 500 → chapters_read cur prev = 1) ∧
    (cur ≤ prev → chapters_read cur prev = 1) ∧
    1 ≤ chapters_read cur prev := by
  refine ⟨?_, ?_, ?_, chapters_read_ge_one cur prev⟩ <;>
    (intros; dsimp only [chapters_read]; split_ifs <;> omega)

/-- Witness for C1 at concrete inputs: 10 over 3 gives 7, a jump from 0
to 600 is corrected to 1, a re-read (2 after 5) gives 1. -/
theorem chapters_read_formula_witness :
    chapters_read 10 3 = 7 ∧ chapters_read 600 0 = 1 ∧ chapters_read 2 5 = 1 ∧
    1 ≤ chapters_read 10 3 :=
  ⟨(chapters_read_formula 10 3).1 (by decide) (by decide),
   (chapters_read_formula 600 0).2.1 (by decide) rfl (by decide),
   (chapters_read_formula 2 5).2.2.1 (by decide),
   (chapters_read_formula 10 3).2.2.2⟩

/-- C2: with `busy_until` the cursor before the activity is processed,
the start is shifted to `busy_until + 1` exactly when
`createdAt < busy_until` and the overlap is under 7200 seconds,
otherwise the original start is kept; and any event the step emits has
exactly that start and ends at start plus
`chapters_read * MINUTES_PER_CHAPTER * 60` seconds. -/
theorem smart_time_shifting (s : RState) (act : Activity) (s' : RState) (cur : Int)
    (hp : parse_progress act.progress = Except.ok cur)
    (hok : processActivity s act = Except.ok s') :
    (act.createdAt < s.cursor → s.cursor - act.createdAt < 7200 →
      calculated_start s.cursor act.createdAt = s.cursor + 1) ∧
    (¬(act.createdAt < s.cursor ∧ s.cursor - act.createdAt < 7200) →
      calculated_start s.cursor act.createdAt = act.createdAt) ∧
    (s'.events = s.events ∨ ∃ ev : Event, s'.events = s.events ++ [ev]) ∧
    (∀ ev : Event, s'.events = s.events ++ [ev] →
      ev.start = calculated_start s.cursor act.createdAt ∧
      ev.stop = ev.start + chapters_read cur (lookupD s.tracker act.media.id 0) *
        MINUTES_PER_CHAPTER * 60) := by
  obtain ⟨-, -, hev⟩ := processActivity_spec s act s' cur hp hok
  refine ⟨?_, ?_, ?_, ?_⟩
  · intro h1 h2
    unfold calculated_start
    rw [if_pos h1, if_pos h2]
  · intro h
    unfold calculated_start
    split_ifs with h1 h2
    · exact absurd ⟨h1, h2⟩ h
    · rfl
    · rfl
  · rcases hev with ⟨-, he⟩ | ⟨sum, -, he⟩
    · exact Or.inl he
    · exact Or.inr ⟨_, he⟩
  · intro ev hev'
    rcases hev with ⟨-, he⟩ | ⟨sum, -, he⟩
    · exfalso
      have h2 := congrArg List.length (he.symm.trans hev')
      simp at h2
    · have h3 := List.append_cancel_left (he.symm.trans hev')
      injection h3 with h4 h5
      subst h4
      exact ⟨rfl, rfl⟩

/-- Witness for C2: the overlapping second activity of the end-to-end
scenario is shifted to one second past the cursor. -/
theorem smart_time_shifting_witness :
    calculated_start 3400 1010 = 3400 + 1 := by
  have h := smart_time_shifting
    { tracker := [(7, 10)], cursor := 3400, events := [] }
    { id := 2, createdAt := 1010, status := "CURRENT", progress := .vint 25,
      media := { id := 7, titleEnglish := some "X", titleRomaji := Option.none } }
    { tracker := [(7, 25)], cursor := 7001,
      events := [{ id := 2, start := 3401, stop := 7001, summary := "Read X (Ch. 11-25)",
                   description := "Read 15 chapters. Duration: 60 mins." }] }
    25 rfl rfl
  exact h.1 (by decide) (by decide)

/-- C4 counterexample: a 100-chapter first session ending at 24000
followed by a one-chapter activity time-stamped at 10 (an overlap of
more than two hours, so the original start passes through) drives the
global cursor from 24000 back down to 250, so the cursor is not
monotonically non-decreasing after the first event. -/
theorem cursor_decreases_counterexample :
    (reconstruct
      [{ id := 1, createdAt := 0, status := "CURRENT", progress := .vint 100,
         media := { id := 7, titleEnglish := some "X", titleRomaji := Option.none } }]).map
        RState.cursor = Except.ok 24000 ∧
    (reconstruct
      [{ id := 1, createdAt := 0, status := "CURRENT", progress := .vint 100,
         media := { id := 7, titleEnglish := some "X", titleRomaji := Option.none } },
       { id := 2, createdAt := 10, status := "CURRENT", progress := .vint 101,
         media := { id := 7, titleEnglish := some "X", titleRomaji := Option.none } }]).map
        RState.cursor = Except.ok 250 ∧
    (250 : Int) < 24000 :=
  ⟨rfl, rfl, by decide⟩

/-- C4 amended: the global cursor never decreases from one processed
activity to the next, except when an activity's original start precedes
the cursor by at least 7200 seconds (the over-two-hours pass-through,
where the unmodified early start can pull the cursor backwards). -/
theorem cursor_nondecreasing_unless_big_gap (s : RState) (act : Activity) (s' : RState)
    (hok : processActivity s act = Except.ok s')
    (hgap : ¬(act.createdAt < s.cursor ∧ 7200 ≤ s.cursor - act.createdAt)) :
    s.cursor ≤ s'.cursor := by
  obtain ⟨cur, hp⟩ := processActivity_exists_parse s act s' hok
  obtain ⟨-, hcur, -⟩ := processActivity_spec s act s' cur hp hok
  have hch := chapters_read_ge_one cur (lookupD s.tracker act.media.id 0)
  rw [hcur]
  unfold calculated_start MINUTES_PER_CHAPTER
  split_ifs with h1 h2
  · omega
  · omega
  · omega

/-- Witness for C4 amended: a first activity at timestamp 1000 moves the
cursor from 0 up to 1720. -/
theorem cursor_nondecreasing_unless_big_gap_witness :
    (0 : Int) ≤ 1720 := by
  have h := cursor_nondecreasing_unless_big_gap
    { tracker := [], cursor := 0, events := [] }
    { id := 1, createdAt := 1000, status := "CURRENT", progress := .vint 3,
      media := { id := 7, titleEnglish := some "X", titleRomaji := Option.none } }
    { tracker := [(7, 3)], cursor := 1720,
      events := [{ id := 1, start := 1000, stop := 1720, summary := "Read X (Ch. 1-3)",
                   description := "Read 3 chapters. Duration: 12 mins." }] }
    rfl (by decide)
  exact h

/-- C5: in any reachable state, an activity whose interpreted progress
is 0 and whose status is not COMPLETED emits no event, yet the cursor
still advances to its (possibly shifted) start plus
`1 * MINUTES_PER_CHAPTER * 60`; and after processing any activity the
cursor equals that activity's computed end timestamp. -/
theorem skipped_activity_advances_cursor (s : RState) (act : Activity) (s' : RState) (cur : Int)
    (hreach : ReachableState s)
    (hp : parse_progress act.progress = Except.ok cur)
    (hok : processActivity s act = Except.ok s') :
    (cur = 0 → act.status ≠ "COMPLETED" →
      s'.events = s.events ∧
      s'.cursor = calculated_start s.cursor act.createdAt + 1 * MINUTES_PER_CHAPTER * 60) ∧
    s'.cursor = calculated_start s.cursor act.createdAt +
      chapters_read cur (lookupD s.tracker act.media.id 0) * MINUTES_PER_CHAPTER * 60 := by
  obtain ⟨-, hcur, hev⟩ := processActivity_spec s act s' cur hp hok
  refine ⟨?_, hcur⟩
  intro h0 hst
  subst h0
  have hprev : 0 ≤ lookupD s.tracker act.media.id 0 :=
    lookupD_nonneg _ _ (reachable_tracker_pos s hreach)
  have hch : chapters_read 0 (lookupD s.tracker act.media.id 0) = 1 := by
    dsimp only [chapters_read]
    split_ifs <;> omega
  have hsum : summaryFor act.status (resolveTitle act.media.titleEnglish act.media.titleRomaji)
      (chapters_read 0 (lookupD s.tracker act.media.id 0))
      (lookupD s.tracker act.media.id 0) 0 = Option.none := by
    unfold summaryFor
    rw [if_neg hst, if_neg (by decide : ¬((0 : Int) ≠ 0))]
  rcases hev with ⟨-, he⟩ | ⟨sum, hs, -⟩
  · refine ⟨he, ?_⟩
    rw [hcur, hch]
  · rw [hsum] at hs
    cases hs

/-- Witness for C5: from the initial state, an activity with `None`
progress and status CURRENT at timestamp 1000 emits nothing and moves
the cursor to 1000 + 240. -/
theorem skipped_activity_advances_cursor_witness :
    ([] : List Event) = [] ∧
    (1240 : Int) = calculated_start 0 1000 + 1 * MINUTES_PER_CHAPTER * 60 := by
  have h := skipped_activity_advances_cursor
    { tracker := [], cursor := 0, events := [] }
    { id := 1, createdAt := 1000, status := "CURRENT", progress := .none,
      media := { id := 7, titleEnglish := some "X", titleRomaji := Option.none } }
    { tracker := [], cursor := 1240, events := [] }
    0 ⟨[], rfl⟩ rfl rfl
  exact h.1 rfl (by decide)

/-- C3: the end-to-end two-activity scenario with chapter duration 4
minutes: the first event covers chapters 1-10 at [1000, 3400], the
second reads 15 chapters (from previous progress 10 to 25), is shifted
to start at 3401 and ends at 7001. -/
theorem end_to_end_scenario :
    reconstruct
      [{ id := 1, createdAt := 1000, status := "CURRENT", progress := .vint 10,
         media := { id := 7, titleEnglish := some "X", titleRomaji := Option.none } },
       { id := 2, createdAt := 1010, status := "CURRENT", progress := .vint 25,
         media := { id := 7, titleEnglish := some "X", titleRomaji := Option.none } }] =
      Except.ok
        { tracker := [(7, 25)], cursor := 7001,
          events :=
            [{ id := 1, start := 1000, stop := 3400, summary := "Read X (Ch. 1-10)",
               description := "Read 10 chapters. Duration: 40 mins." },
             { id := 2, start := 3401, stop := 7001, summary := "Read X (Ch. 11-25)",
               description := "Read 15 chapters. Duration: 60 mins." }] } ∧
    chapters_read 10 0 = 10 ∧ chapters_read 25 10 = 15 ∧
    MINUTES_PER_CHAPTER = 4 :=
  ⟨rfl, by decide, by decide, rfl⟩

theorem mem_dropWhile_of_mem {p : Char → Bool} {a : Char} {l : List Char}
    (h : a ∈ l) (ha : p a = false) : a ∈ l.dropWhile p := by
  induction l with
  | nil => cases h
  | cons b bs ih =>
    rw [List.dropWhile_cons]
    split_ifs with hb
    · rcases List.mem_cons.mp h with rfl | h'
      · rw [ha] at hb; cases hb
      · exact ih h'
    · exact h

theorem dash_mem_pyStripChars {l : List Char} (h : '-' ∈ l) : '-' ∈ pyStripChars l := by
  unfold pyStripChars
  exact List.mem_reverse.mpr
    (mem_dropWhile_of_mem
      (List.mem_reverse.mpr (mem_dropWhile_of_mem h (by decide))) (by decide))

theorem mem_of_mem_pyStripChars {a : Char} {l : List Char} (h : a ∈ pyStripChars l) :
    a ∈ l := by
  unfold pyStripChars at h
  have h1 := (List.dropWhile_sublist Char.isWhitespace).mem (List.mem_reverse.mp h)
  exact (List.dropWhile_sublist Char.isWhitespace).mem (List.mem_reverse.mp h1)

/-- C6: the five contract examples of the Progress Interpreter, together
with the general range policy: on any string containing a `-`, the
result is the integer parse of the stripped last `-`-separated segment,
with parse failure degrading to 0. -/
theorem parse_progress_policy :
    parse_progress PyVal.none = Except.ok 0 ∧
    parse_progress (PyVal.vint 42) = Except.ok 42 ∧
    parse_progress (PyVal.vstr "111 - 121") = Except.ok 121 ∧
    parse_progress (PyVal.vstr "abc") = Except.ok 0 ∧
    parse_progress (PyVal.vstr "7") = Except.ok 7 ∧
    ∀ s : String, '-' ∈ s.data →
      parse_progress (PyVal.vstr s) =
        Except.ok ((pyIntOfChars (pyStripChars
          ((pySplitOn '-' (pyStripChars s.data)).getLastD []))).getD 0) := by
  refine ⟨rfl, rfl, rfl, rfl, rfl, ?_⟩
  intro s hs
  have hc : (pyStripChars s.data).contains '-' = true :=
    List.elem_eq_true_of_mem (dash_mem_pyStripChars hs)
  unfold parse_progress
  dsimp only
  rw [if_pos hc]
  cases hint : pyIntOfChars (pyStripChars ((pySplitOn '-' (pyStripChars s.data)).getLastD [])) with
  | none => rfl
  | some m => rfl

/-- Witness for C6 at a concrete range string. -/
theorem parse_progress_policy_witness :
    parse_progress (PyVal.vstr "3 - 9") = Except.ok 9 := by
  have h := parse_progress_policy.2.2.2.2.2 "3 - 9" (by decide)
  exact h.trans rfl

/-- C8 counterexample: the Progress Interpreter does raise on one input
shape — `int(float('nan'))` is evaluated outside both `try` blocks and
raises `ValueError`. -/
theorem parse_progress_raises_on_nan :
    parse_progress (PyVal.vfloat PyFloat.nan) =
      Except.error "ValueError: cannot convert float NaN to integer" := rfl

/-- C8 amended: the Progress Interpreter never raises on `None`,
integers, finite floats or arbitrary strings (all malformed strings
degrade to 0); only the non-finite floats NaN, `inf` and `-inf` raise,
because `int(val)` on a float is outside both `try` blocks. -/
theorem parse_progress_total_unless_nonfinite (v : PyVal)
    (h1 : v ≠ PyVal.vfloat PyFloat.nan)
    (h2 : v ≠ PyVal.vfloat PyFloat.inf)
    (h3 : v ≠ PyVal.vfloat PyFloat.ninf) :
    ∃ n : Int, parse_progress v = Except.ok n := by
  cases v with
  | none => exact ⟨0, rfl⟩
  | vint n => exact ⟨n, rfl⟩
  | vfloat f =>
    cases f with
    | finite t => exact ⟨t, rfl⟩
    | nan => exact absurd rfl h1
    | inf => exact absurd rfl h2
    | ninf => exact absurd rfl h3
  | vstr s =>
    unfold parse_progress
    dsimp only
    split
    · split <;> exact ⟨_, rfl⟩
    · split <;> exact ⟨_, rfl⟩

/-- Witness for C8 amended: the malformed string "abc" parses to 0
without an error. -/
theorem parse_progress_total_unless_nonfinite_witness :
    ∃ n : Int, parse_progress (PyVal.vstr "abc") = Except.ok n :=
  parse_progress_total_unless_nonfinite (PyVal.vstr "abc")
    (by decide) (by decide) (by decide)

theorem pySplitOn_ne_nil (sep : Char) (cs : List Char) : pySplitOn sep cs ≠ [] := by
  induction cs with
  | nil => simp [pySplitOn]
  | cons c cs ih =>
    dsimp only [pySplitOn]
    split_ifs with h
    · simp
    · cases hr : pySplitOn sep cs with
      | nil => simp
      | cons s rest => simp

theorem sep_not_mem_pySplitOn (sep : Char) (cs : List Char) :
    ∀ part ∈ pySplitOn sep cs, sep ∉ part := by
  induction cs with
  | nil =>
    intro part hp
    simp only [pySplitOn, List.mem_singleton] at hp
    subst hp
    simp
  | cons c cs ih =>
    intro part hp
    dsimp only [pySplitOn] at hp
    split_ifs at hp with h
    · rcases List.mem_cons.mp hp with rfl | hp'
      · simp
      · exact ih part hp'
    · cases hr : pySplitOn sep cs with
      | nil => exact absurd hr (pySplitOn_ne_nil sep cs)
      | cons s rest =>
        rw [hr] at hp
        dsimp only at hp
        rcases List.mem_cons.mp hp with rfl | hp'
        · intro hmem
          rcases List.mem_cons.mp hmem with heq | hmem'
          · exact h heq.symm
          · exact ih s (by rw [hr]; exact List.mem_cons_self s rest) hmem'
        · exact ih part (by rw [hr]; exact List.mem_cons_of_mem _ hp')

theorem getLastD_cons_mem (a : List Char) (as : List (List Char)) (d : List Char) :
    (a :: as).getLastD d ∈ a :: as := by
  induction as generalizing a d with
  | nil => simp [List.getLastD]
  | cons b bs ih =>
    rw [List.getLastD_cons]
    exact List.mem_cons_of_mem _ (ih b a)

theorem pyIntOfChars_nonneg {cs : List Char} (hnd : '-' ∉ cs) :
    ∀ n : Int, pyIntOfChars cs = some n → 0 ≤ n := by
  intro n h
  unfold pyIntOfChars at h
  split at h
  · rename_i rest heq
    exact absurd (mem_of_mem_pyStripChars (heq ▸ List.mem_cons_self '-' rest)) hnd
  · obtain ⟨m, -, hmn⟩ := Option.map_eq_some'.mp h
    subst hmn
    exact Int.natCast_nonneg m
  · obtain ⟨m, -, hmn⟩ := Option.map_eq_some'.mp h
    subst hmn
    exact Int.natCast_nonneg m

/-- C10: a leading `-` on a progress string is treated as the range
separator, not as a sign: `"-5"` parses to 5, and more generally any
string containing a `-` parses to a non-negative value, while a genuine
negative integer input passes through as itself. -/
theorem leading_dash_is_separator :
    parse_progress (PyVal.vstr "-5") = Except.ok 5 ∧
    parse_progress (PyVal.vint (-5)) = Except.ok (-5) ∧
    ∀ (s : String) (n : Int), '-' ∈ s.data →
      parse_progress (PyVal.vstr s) = Except.ok n → 0 ≤ n := by
  refine ⟨rfl, rfl, ?_⟩
  intro s n hs h
  have hc : (pyStripChars s.data).contains '-' = true :=
    List.elem_eq_true_of_mem (dash_mem_pyStripChars hs)
  unfold parse_progress at h
  dsimp only at h
  rw [if_pos hc] at h
  have hnd : '-' ∉ pyStripChars ((pySplitOn '-' (pyStripChars s.data)).getLastD []) := by
    intro hm
    have h1 := mem_of_mem_pyStripChars hm
    have hmemlast : (pySplitOn '-' (pyStripChars s.data)).getLastD [] ∈
        pySplitOn '-' (pyStripChars s.data) := by
      cases hr : pySplitOn '-' (pyStripChars s.data) with
      | nil => exact absurd hr (pySplitOn_ne_nil '-' (pyStripChars s.data))
      | cons a as => exact getLastD_cons_mem a as []
    exact sep_not_mem_pySplitOn '-' (pyStripChars s.data) _ hmemlast h1
  cases hint : pyIntOfChars (pyStripChars ((pySplitOn '-' (pyStripChars s.data)).getLastD [])) with
  | none =>
    rw [hint] at h
    injection h with h
    omega
  | some m =>
    rw [hint] at h
    injection h with h
    exact h ▸ pyIntOfChars_nonneg hnd m hint

/-- Witness for C10: the general non-negativity clause applied at the
string "-5". -/
theorem leading_dash_is_separator_witness : (0 : Int) ≤ 5 :=
  leading_dash_is_separator.2.2 "-5" 5 (by decide) leading_dash_is_separator.1

/-- C7: summary formats of emitted events — COMPLETED activities give
"Completed: {title}"; a single-chapter read at progress 5 gives
"Read {title} Ch. 5"; a multi-chapter read from 15 to 20 gives
"Read {title} (Ch. 16-20)"; and the title is the English name when
present and nonempty, else the romanized name, else "Unknown Title". -/
theorem summary_formats (e r : Option String) (st : String) (c p q : Int) :
    (summaryFor "COMPLETED" (resolveTitle e r) c p q =
      some ("Completed: " ++ resolveTitle e r)) ∧
    (st ≠ "COMPLETED" →
      summaryFor st (resolveTitle e r) 1 p 5 =
        some ("Read " ++ resolveTitle e r ++ " Ch. 5")) ∧
    (st ≠ "COMPLETED" → 1 < c →
      summaryFor st (resolveTitle e r) c 15 20 =
        some ("Read " ++ resolveTitle e r ++ " (Ch. 16-20)")) ∧
    (∀ t : String, e = some t → t ≠ "" → resolveTitle e r = t) ∧
    (∀ t : String, (e = Option.none ∨ e = some "") → r = some t → t ≠ "" →
      resolveTitle e r = t) ∧
    ((e = Option.none ∨ e = some "") → (r = Option.none ∨ r = some "") →
      resolveTitle e r = "Unknown Title") := by
  refine ⟨?_, ?_, ?_, ?_, ?_, ?_⟩
  · unfold summaryFor
    rw [if_pos rfl]
  · intro hst
    unfold summaryFor
    rw [if_neg hst, if_pos (by decide : (5 : Int) ≠ 0), if_neg (by decide : ¬((1 : Int) > 1))]
    rw [String.append_assoc]
    rfl
  · intro hst hc
    unfold summaryFor
    rw [if_neg hst, if_pos (by decide : (20 : Int) ≠ 0), if_pos hc]
    simp only [String.append_assoc]
    rfl
  · intro t ht hne
    subst ht
    simp [resolveTitle, pyOrStr, hne]
  · intro t he hr hne
    subst hr
    rcases he with rfl | rfl <;> simp [resolveTitle, pyOrStr, hne]
  · intro he hr
    rcases he with rfl | rfl <;> rcases hr with rfl | rfl <;> rfl

/-- Witness for C7: the single-chapter summary at title "X", status
CURRENT, current progress 5. -/
theorem summary_formats_witness :
    summaryFor "CURRENT" (resolveTitle (some "X") Option.none) 1 0 5 =
      some "Read X Ch. 5" := by
  have h := (summary_formats (some "X") Option.none "CURRENT" 2 0 5).2.1 (by decide)
  exact h.trans rfl

theorem processActivity_eq (s : RState) (act : Activity) (cur : Int)
    (hp : parse_progress act.progress = Except.ok cur) :
    processActivity s act =
      (match summaryFor act.status (resolveTitle act.media.titleEnglish act.media.titleRomaji)
          (chapters_read cur (lookupD s.tracker act.media.id 0))
          (lookupD s.tracker act.media.id 0) cur with
       | Option.none =>
         Except.ok
           { tracker := if cur > 0 then setEntry s.tracker act.media.id cur else s.tracker,
             cursor := calculated_start s.cursor act.createdAt +
               chapters_read cur (lookupD s.tracker act.media.id 0) * MINUTES_PER_CHAPTER * 60,
             events := s.events }
       | some sum =>
         Except.ok
           { tracker := if cur > 0 then setEntry s.tracker act.media.id cur else s.tracker,
             cursor := calculated_start s.cursor act.createdAt +
               chapters_read cur (lookupD s.tracker act.media.id 0) * MINUTES_PER_CHAPTER * 60,
             events := s.events ++
               [{ id := act.id,
                  start := calculated_start s.cursor act.createdAt,
                  stop := calculated_start s.cursor act.createdAt +
                    chapters_read cur (lookupD s.tracker act.media.id 0) *
                      MINUTES_PER_CHAPTER * 60,
                  summary := sum,
                  description := "Read " ++
                    toString (chapters_read cur (lookupD s.tracker act.media.id 0)) ++
                    " chapters. Duration: " ++
                    toString (chapters_read cur (lookupD s.tracker act.media.id 0) *
                      MINUTES_PER_CHAPTER) ++ " mins." }] }) := by
  unfold processActivity
  rw [hp]
  rfl

theorem generateStep_match (t : List (Int × Int)) (c : Int) (L : List String)
    (act : Activity) (cur : Int)
    (hp : parse_progress act.progress = Except.ok cur) :
    generateStep { tracker := t, cursor := c, lines := L } act =
      (match summaryFor act.status (resolveTitle act.media.titleEnglish act.media.titleRomaji)
          (chapters_read cur (lookupD t act.media.id 0)) (lookupD t act.media.id 0) cur with
       | Option.none =>
         Except.ok
           { tracker := if cur > 0 then setEntry t act.media.id cur else t,
             cursor := calculated_start c act.createdAt +
               chapters_read cur (lookupD t act.media.id 0) * MINUTES_PER_CHAPTER * 60,
             lines := L }
       | some sum =>
         Except.ok
           { tracker := if cur > 0 then setEntry t act.media.id cur else t,
             cursor := calculated_start c act.createdAt +
               chapters_read cur (lookupD t act.media.id 0) * MINUTES_PER_CHAPTER * 60,
             lines := L ++
               ["BEGIN:VEVENT",
                "UID:anilist-" ++ toString act.id ++ "@anilist.co",
                "DTSTAMP:" ++ format_date_ics (calculated_start c act.createdAt),
                "DTSTART:" ++ format_date_ics (calculated_start c act.createdAt),
                "DTEND:" ++ format_date_ics (calculated_start c act.createdAt +
                  chapters_read cur (lookupD t act.media.id 0) * MINUTES_PER_CHAPTER * 60),
                "SUMMARY:" ++ sum,
                "DESCRIPTION:Read " ++
                  toString (chapters_read cur (lookupD t act.media.id 0)) ++
                  " chapters. Duration: " ++
                  toString (chapters_read cur (lookupD t act.media.id 0) *
                    MINUTES_PER_CHAPTER) ++ " mins.",
                "END:VEVENT"] }) := by
  unfold generateStep
  rw [hp]
  rfl

theorem generateStep_err (g : GState) (act : Activity) (e : String)
    (hp : parse_progress act.progress = Except.error e) :
    generateStep g act = Except.error e := by
  unfold generateStep
  rw [hp]
  rfl

theorem generateStep_sim (rs : RState) (act : Activity) (L0 : List String) :
    generateStep
        { tracker := rs.tracker, cursor := rs.cursor,
          lines := L0 ++ rs.events.flatMap eventBlock } act =
      (processActivity rs act).map (fun rs' =>
        { tracker := rs'.tracker, cursor := rs'.cursor,
          lines := L0 ++ rs'.events.flatMap eventBlock }) := by
  cases hp : parse_progress act.progress with
  | error e =>
    rw [processActivity_err rs act e hp, generateStep_err _ act e hp]
    rfl
  | ok cur =>
    rw [generateStep_match rs.tracker rs.cursor _ act cur hp, processActivity_eq rs act cur hp]
    cases hs : summaryFor act.status (resolveTitle act.media.titleEnglish act.media.titleRomaji)
        (chapters_read cur (lookupD rs.tracker act.media.id 0))
        (lookupD rs.tracker act.media.id 0) cur with
    | none => rfl
    | some sum =>
      dsimp only [Except.map]
      simp only [List.flatMap_append, List.flatMap_cons, List.flatMap_nil,
        List.append_nil, List.append_assoc, eventBlock]
      rfl

/-- Simulation between the line-level fold of `generate_ics` and the
event-level fold of `reconstruct`: the output lines accumulated so far
are always the fixed prefix followed by one VEVENT block per emitted
event. -/
theorem foldlM_sim (acts : List Activity) (rs : RState) (L0 : List String) :
    acts.foldlM generateStep
        { tracker := rs.tracker, cursor := rs.cursor,
          lines := L0 ++ rs.events.flatMap eventBlock } =
      (acts.foldlM processActivity rs).map (fun rs' =>
        { tracker := rs'.tracker, cursor := rs'.cursor,
          lines := L0 ++ rs'.events.flatMap eventBlock }) := by
  induction acts generalizing rs with
  | nil => rfl
  | cons a as ih =>
    rw [List.foldlM_cons, List.foldlM_cons, generateStep_sim]
    cases h : processActivity rs a with
    | error e => rfl
    | ok rs1 => exact ih rs1

theorem mem_insertById {y a : Activity} {l : List Activity} (h : y ∈ insertById a l) :
    y = a ∨ y ∈ l := by
  induction l with
  | nil =>
    simp only [insertById, List.mem_singleton] at h
    exact Or.inl h
  | cons b bs ih =>
    dsimp only [insertById] at h
    split_ifs at h with hb
    · rcases List.mem_cons.mp h with rfl | h'
      · exact Or.inr (List.mem_cons_self _ _)
      · rcases ih h' with h'' | h''
        · exact Or.inl h''
        · exact Or.inr (List.mem_cons_of_mem _ h'')
    · rcases List.mem_cons.mp h with rfl | h'
      · exact Or.inl rfl
      · exact Or.inr h'

theorem pairwise_insertById (a : Activity) (l : List Activity)
    (h : l.Pairwise (fun x y => x.id ≤ y.id)) :
    (insertById a l).Pairwise (fun x y => x.id ≤ y.id) := by
  induction l with
  | nil => simp [insertById]
  | cons b bs ih =>
    rw [List.pairwise_cons] at h
    obtain ⟨hb, hbs⟩ := h
    dsimp only [insertById]
    split_ifs with hlt
    · rw [List.pairwise_cons]
      refine ⟨?_, ih hbs⟩
      intro y hy
      rcases mem_insertById hy with rfl | hy'
      · omega
      · exact hb y hy'
    · rw [List.pairwise_cons]
      refine ⟨?_, List.pairwise_cons.mpr ⟨hb, hbs⟩⟩
      intro y hy
      rcases List.mem_cons.mp hy with rfl | hy'
      · omega
      · have := hb y hy'
        omega

theorem pairwise_sortById (l : List Activity) :
    (sortById l).Pairwise (fun x y => x.id ≤ y.id) := by
  induction l with
  | nil => simp [sortById]
  | cons a as ih => exact pairwise_insertById a (sortById as) ih

theorem fold_events_ids (acts : List Activity) (rs st : RState)
    (h : acts.foldlM processActivity rs = Except.ok st) :
    ∃ l : List Int, st.events.map Event.id = rs.events.map Event.id ++ l ∧
      l.Sublist (acts.map Activity.id) := by
  induction acts generalizing rs with
  | nil =>
    have h' : Except.ok rs = Except.ok st := h
    injection h' with h'
    subst h'
    exact ⟨[], by simp, by simp⟩
  | cons a as ih =>
    rw [List.foldlM_cons] at h
    cases h1 : processActivity rs a with
    | error e =>
      rw [h1] at h
      have h' : (Except.error e : Except String RState) = Except.ok st := h
      cases h'
    | ok rs1 =>
      rw [h1] at h
      have h' : as.foldlM processActivity rs1 = Except.ok st := h
      obtain ⟨l1, hl1, hsub⟩ := ih rs1 h'
      obtain ⟨cur, hp⟩ := processActivity_exists_parse rs a rs1 h1
      obtain ⟨-, -, hev⟩ := processActivity_spec rs a rs1 cur hp h1
      rcases hev with ⟨-, he⟩ | ⟨sum, -, he⟩
      · refine ⟨l1, ?_, hsub.trans ?_⟩
        · rw [hl1, he]
        · rw [List.map_cons]
          exact List.sublist_cons_self a.id (as.map Activity.id)
      · refine ⟨a.id :: l1, ?_, ?_⟩
        · rw [hl1, he]
          simp
        · rw [List.map_cons]
          exact hsub.cons₂ a.id

/-- C9: the output is the fixed calendar header, one VEVENT sub-block
per emitted event in the (ascending-id) order the reconstruction
produced them, and the closing footer; each sub-block's UID is
`anilist-<activity id>@anilist.co`, its DTSTAMP and DTSTART both carry
the event's start and its DTEND the event's end, all rendered by
`format_date_ics`, the UTC `YYYYMMDDTHHMMSSZ` formatter. -/
theorem ics_output_structure (activities : List Activity) :
    generate_ics activities =
      (reconstruct activities).map (fun st =>
        icsHeader ++ st.events.flatMap eventBlock ++ ["END:VCALENDAR"]) ∧
    (∀ st : RState, reconstruct activities = Except.ok st →
      (st.events.map Event.id).Pairwise (fun a b => a ≤ b)) ∧
    format_date_ics 0 = "19700101T000000Z" ∧
    format_date_ics 1000000000 = "20010909T014640Z" := by
  refine ⟨?_, ?_, rfl, rfl⟩
  · unfold generate_ics reconstruct
    have base : (sortById activities).foldlM generateStep
        { tracker := [], cursor := 0, lines := icsHeader } =
        ((sortById activities).foldlM processActivity initState).map (fun rs' =>
          { tracker := rs'.tracker, cursor := rs'.cursor,
            lines := icsHeader ++ rs'.events.flatMap eventBlock }) :=
      foldlM_sim (sortById activities) initState icsHeader
    rw [base]
    cases hF : (sortById activities).foldlM processActivity initState with
    | error e => rfl
    | ok st => rfl
  · intro st hst
    unfold reconstruct at hst
    obtain ⟨l, hl, hsub⟩ := fold_events_ids (sortById activities) initState st hst
    have hle : st.events.map Event.id = l := by simpa using hl
    rw [hle]
    have hp' : ((sortById activities).map Activity.id).Pairwise (fun a b => a ≤ b) :=
      List.pairwise_map.mpr (pairwise_sortById activities)
    exact hp'.sublist hsub

/-- Witness for C9: the event ids of a concrete one-activity run are
sorted ascending. -/
theorem ics_output_structure_witness :
    (([{ id := 5, start := 100, stop := 340, summary := "Read T Ch. 1",
         description := "Read 1 chapters. Duration: 4 mins." }] : List Event).map
       Event.id).Pairwise (fun a b : Int => a ≤ b) :=
  (ics_output_structure
    [{ id := 5, createdAt := 100, status := "CURRENT", progress := .vint 1,
       media := { id := 9, titleEnglish := some "T", titleRomaji := Option.none } }]).2.1
    { tracker := [(9, 1)], cursor := 340,
      events := [{ id := 5, start := 100, stop := 340, summary := "Read T Ch. 1",
                   description := "Read 1 chapters. Duration: 4 mins." }] }
    rfl

end AniCal
